import Mathlib

/-!
Shallow embedding of the Azure blob-storage datastore adapter
(`azure/azure.go` of paulgmiller/go-datastore).

The Go source file contains three concatenated draft revisions of the
adapter.  The second revision (the complete one, with error-code
translation) is embedded under the plain source names (`Get`, `Has`,
`GetSize`, `Delete`, `Put`, `NewDatastore`, `DiskUsage`, `Query`);
the third revision, whose `Get` and `Delete` never translate the
backend not-found code, is embedded as `GetV3` and `DeleteV3`.

Go error values are modelled as `Option` (with `none` for Go `nil`),
Azure service error codes as `ServiceCode`, and the azblob
`StorageError` as a structure carrying its service code.  The generic
datastore error `ds.ErrNotFound` is the distinguished constructor
`GoErr.dsErrNotFound`.  Byte slices are `List Nat`.

The external azblob backend (out of the repository) is modelled as a
map from blob names to byte contents plus a fault-injection function
that lets a request fail with an arbitrary `StorageError`, matching
the backend interface described for the adapter: upload stores the
full body, download returns the full stored body or the blob-not-found
code, get-properties returns the content length or the blob-not-found
code.
-/

/-- Azure service error codes distinguished by the adapter; all codes other
than the two it inspects are collapsed into `otherCode`. -/
inductive ServiceCode where
  | blobNotFound
  | containerAlreadyExists
  | otherCode (s : String)
deriving DecidableEq, Repr

/-- The azblob `StorageError`: an error carrying a service code. -/
structure StorageError where
  serviceCode : ServiceCode
deriving DecidableEq, Repr

/-- A Go error value as seen by callers of the adapter: the generic
datastore not-found error `ds.ErrNotFound`, a backend `StorageError`, or
some other error (e.g. a credential failure). -/
inductive GoErr where
  | dsErrNotFound
  | storageErr (e : StorageError)
  | otherErr (s : String)
deriving DecidableEq, Repr

/-- `isError(err, e)` from azure.go: `errors.As` succeeds exactly when the
error is a backend `StorageError`, and then the service codes are compared;
`nil` and non-storage errors never match. -/
def isError (err : Option GoErr) (e : ServiceCode) : Bool :=
  match err with
  | some (GoErr.storageErr serr) => serr.serviceCode = e
  | _ => false

/-- Blob properties returned by a metadata (GetProperties) request. -/
structure BlobProps where
  contentLength : Int
deriving DecidableEq, Repr

/-- The backend container state: blob name to stored bytes. -/
def Store : Type := String → Option (List Nat)

/-- Fault injection for backend requests: a blob name on which the request
fails with the given `StorageError` instead of following store contents. -/
def Faults : Type := String → Option StorageError

/-- The all-successful backend: no injected faults. -/
def noFault : Faults := fun _ => none

/-- Backend blob upload (azblob `Upload`): stores the full value under the
blob name, overwriting. -/
def upload (σ : Store) (k : String) (v : List Nat) : Store :=
  fun k2 => if k2 = k then some v else σ k2

/-- Backend blob download (azblob `Download` with offset 0 and count 0 =
CountToEnd): the full stored body, or a blob-not-found service error for an
absent blob; an injected fault takes precedence. -/
def download (σ : Store) (F : Faults) (k : String) :
    Except StorageError (List Nat) :=
  match F k with
  | some e => Except.error e
  | none =>
    match σ k with
    | some v => Except.ok v
    | none => Except.error ⟨ServiceCode.blobNotFound⟩

/-- Backend metadata request (azblob `GetProperties`): the blob properties
with the content length, or a blob-not-found service error for an absent
blob; an injected fault takes precedence. -/
def getProperties (σ : Store) (F : Faults) (k : String) :
    Except StorageError BlobProps :=
  match F k with
  | some e => Except.error e
  | none =>
    match σ k with
    | some v => Except.ok ⟨(v.length : Int)⟩
    | none => Except.error ⟨ServiceCode.blobNotFound⟩

/-- Backend blob delete (azblob `Delete`): removes the blob and reports a
blob-not-found service error when it was absent; an injected fault takes
precedence. -/
def deleteBlob (σ : Store) (F : Faults) (k : String) :
    Store × Option StorageError :=
  match F k with
  | some e => (σ, some e)
  | none =>
    match σ k with
    | some _ => (fun k2 => if k2 = k then none else σ k2, none)
    | none => (σ, some ⟨ServiceCode.blobNotFound⟩)

/-- `Get` of the second revision (azure.go lines 242-258): on a download
error, a blob-not-found service code is translated to `ds.ErrNotFound` with
a nil value, any other error is returned unchanged with a nil value; on
success the full body is buffered and returned with a nil error. -/
def Get (resp : Except StorageError (List Nat)) :
    Option (List Nat) × Option GoErr :=
  match resp with
  | Except.error e =>
    if isError (some (GoErr.storageErr e)) ServiceCode.blobNotFound then
      (none, some GoErr.dsErrNotFound)
    else
      (none, some (GoErr.storageErr e))
  | Except.ok body => (some body, none)

/-- `Get` of the third revision (azure.go lines 438-451): any download
error is returned unchanged; the blob-not-found service code is never
inspected, so no translation to `ds.ErrNotFound` happens. -/
def GetV3 (resp : Except StorageError (List Nat)) :
    Option (List Nat) × Option GoErr :=
  match resp with
  | Except.error e => (none, some (GoErr.storageErr e))
  | Except.ok body => (some body, none)

/-- `Put` (second revision, azure.go lines 224-233): uploads the value and
returns the backend error unchanged (nil on success). -/
def Put (uploadErr : Option StorageError) : Option GoErr :=
  uploadErr.map GoErr.storageErr

/-- `Has` (second revision, azure.go lines 261-273): issues a metadata
request; blob-not-found becomes `(false, nil)`, any other error is
propagated as `(false, err)`, success is `(true, nil)`. -/
def Has (resp : Except StorageError BlobProps) : Bool × Option GoErr :=
  match resp with
  | Except.error e =>
    if isError (some (GoErr.storageErr e)) ServiceCode.blobNotFound then
      (false, none)
    else
      (false, some (GoErr.storageErr e))
  | Except.ok _ => (true, none)

/-- `GetSize` (second revision, azure.go lines 274-287): issues a metadata
request; blob-not-found becomes `(-1, ds.ErrNotFound)`, any other error
becomes `(0, err)`, success returns the reported content length with a nil
error. -/
def GetSize (resp : Except StorageError BlobProps) : Int × Option GoErr :=
  match resp with
  | Except.error e =>
    if isError (some (GoErr.storageErr e)) ServiceCode.blobNotFound then
      (-1, some GoErr.dsErrNotFound)
    else
      (0, some (GoErr.storageErr e))
  | Except.ok prop => (prop.contentLength, none)

/-- `Delete` (second revision, azure.go lines 290-300): issues the backend
delete and returns the error unchanged unless it carries the blob-not-found
service code, in which case it returns nil (note that a nil error never
matches `isError`, so success also returns nil). -/
def Delete (deleteErr : Option StorageError) : Option GoErr :=
  if ! isError (deleteErr.map GoErr.storageErr) ServiceCode.blobNotFound then
    deleteErr.map GoErr.storageErr
  else
    none

/-- `Delete` of the third revision (azure.go lines 479-486): returns the
backend delete error unchanged, blob-not-found included. -/
def DeleteV3 (deleteErr : Option StorageError) : Option GoErr :=
  deleteErr.map GoErr.storageErr

/-- `NewDatastore` (second revision, azure.go lines 194-208): a credential
error aborts; then the container is created, and a creation error aborts
construction unless it carries the container-already-exists service code,
in which case construction succeeds.  The returned adapter is modelled as
`Unit` (the container handle carries no further state). -/
def NewDatastore (credErr : Option String) (createErr : Option StorageError) :
    Option Unit × Option GoErr :=
  match credErr with
  | some e => (none, some (GoErr.otherErr e))
  | none =>
    match createErr with
    | some e =>
      if ! isError (some (GoErr.storageErr e))
          ServiceCode.containerAlreadyExists then
        (none, some (GoErr.storageErr e))
      else
        (some (), none)
    | none => (some (), none)

/-- `DiskUsage` (second revision, azure.go lines 357-360): unconditionally
returns the constant 100 with a nil error, whatever the store holds. -/
def DiskUsage : Nat × Option GoErr := (100, none)

/-- The real total byte usage of a container given as a finite list of
(blob name, contents) pairs: the sum of the content lengths. -/
def diskUsageOf (blobs : List (String × List Nat)) : Nat :=
  (blobs.map (fun b => b.2.length)).sum

/-- A backend request issued by an adapter operation. -/
inductive Request where
  | downloadReq (key : String)
  | uploadReq (key : String)
  | getPropertiesReq (key : String)
  | deleteReq (key : String)
  | listBlobsReq
deriving DecidableEq, Repr

/-- The backend requests `Has` issues for a key: exactly one GetProperties
(metadata) call, never a download. -/
def hasRequests (k : String) : List Request := [Request.getPropertiesReq k]

/-- The backend requests `GetSize` issues for a key: exactly one
GetProperties (metadata) call, never a download. -/
def getSizeRequests (k : String) : List Request :=
  [Request.getPropertiesReq k]

/-- `Put` composed with the backend: on an injected fault the store is
unchanged and the error is returned; otherwise the value is uploaded. -/
def dsPut (σ : Store) (F : Faults) (k : String) (v : List Nat) :
    Store × Option GoErr :=
  match F k with
  | some e => (σ, Put (some e))
  | none => (upload σ k v, Put none)

/-- `Get` composed with the backend download. -/
def dsGet (σ : Store) (F : Faults) (k : String) :
    Option (List Nat) × Option GoErr :=
  Get (download σ F k)

/-- `GetSize` composed with the backend metadata request. -/
def dsGetSize (σ : Store) (F : Faults) (k : String) : Int × Option GoErr :=
  GetSize (getProperties σ F k)

/-- A blob item in a listing page (azblob `BlobItemInternal`): its name and
the content length from its properties. -/
structure BlobItem where
  name : String
  contentLength : Int
deriving DecidableEq, Repr

/-- A query result entry as filled in by `Query` (second revision,
azure.go lines 317-335): key, fetched value (when keys-only is false),
size from the listing properties, and the per-entry fetch error.  Blob
names were produced by `Put` from canonical key strings, on which the
go-datastore `NewKey(name).String()` round trip is the identity, so the
key is the blob name. -/
structure Entry where
  key : String
  value : Option (List Nat)
  size : Int
  error : Option GoErr
deriving DecidableEq, Repr

/-- The entries `Query` produces for one listing with keys-only false
(second revision, azure.go lines 317-335): each blob item gets its own
`result` and `key` variables (both declared inside the loop iteration, so
the spawned fetch closure captures fresh copies), the size comes from the
listing properties, and the value and per-entry error come from `Get` on
that key. -/
def queryEntries (σ : Store) (F : Faults) (items : List BlobItem) :
    List Entry :=
  items.map (fun b =>
    let r := dsGet σ F b.name
    { key := b.name, value := r.1, size := b.contentLength, error := r.2 })

/-- An observable action of the `Query` producer goroutine on the results
channel: spawning a value-fetch task, sending a keys-only result, joining
all spawned tasks (`wg.Wait`), or closing the channel. -/
inductive QEvent where
  | spawnFetch (name : String)
  | sendKeysOnly (name : String)
  | waitAll
  | closeCh
deriving DecidableEq, Repr

/-- The action trace of the `Query` producer goroutine (second revision,
azure.go lines 307-341) as a function of the successive listing-page
responses (`none` is a listing error, `some items` a page).  Per the code:
on a listing error the channel is closed inside the loop and the goroutine
then panics dereferencing the nil listing response, truncating the trace;
on a page, each blob item spawns a fetch (keys-only false) or sends
directly (keys-only true); after the last page the goroutine waits on the
wait group and closes the channel. -/
def queryEvents (pages : List (Option (List BlobItem))) (keysOnly : Bool) :
    List QEvent :=
  match pages with
  | [] => [QEvent.waitAll, QEvent.closeCh]
  | none :: _ => [QEvent.closeCh]
  | some items :: rest =>
    items.map (fun b =>
      if keysOnly then QEvent.sendKeysOnly b.name
      else QEvent.spawnFetch b.name) ++ queryEvents rest keysOnly

/-- How many times a trace closes the results channel. -/
def closeCount (tr : List QEvent) : Nat :=
  match tr with
  | [] => 0
  | QEvent.closeCh :: rest => closeCount rest + 1
  | _ :: rest => closeCount rest

/-- Fetch tasks still in flight when the first close happens, starting from
`p` pending: a spawn adds one task, a join completes them all, a close
observes the count. -/
def pendingAux (tr : List QEvent) (p : Nat) : Nat :=
  match tr with
  | [] => p
  | QEvent.closeCh :: _ => p
  | QEvent.spawnFetch _ :: rest => pendingAux rest (p + 1)
  | QEvent.waitAll :: rest => pendingAux rest 0
  | QEvent.sendKeysOnly _ :: rest => pendingAux rest p

/-- Fetch tasks still in flight at the first close of the trace. -/
def pendingAtFirstClose (tr : List QEvent) : Nat := pendingAux tr 0

/-- The property the concurrency contract demands of a producer trace: the
channel is closed exactly once, and no spawned fetch is still in flight at
that close. -/
def singleCloseAfterJoin (tr : List QEvent) : Prop :=
  closeCount tr = 1 ∧ pendingAtFirstClose tr = 0

/-- The empty container. -/
def emptyStore : Store := fun _ => none

/-- A concrete container holding the two bytes "hi" under "/a". -/
def storeA : Store := fun k => if k = "/a" then some [104, 105] else none

/-- A concrete fault assignment: requests for "/b" fail with a non-not-found
backend error, everything else succeeds. -/
def faultB : Faults :=
  fun k => if k = "/b" then some ⟨ServiceCode.otherCode "boom"⟩ else none

/-- A concrete listing of the blobs "/a" and "/b". -/
def itemsAB : List BlobItem := [⟨"/a", 2⟩, ⟨"/b", 3⟩]

/-- On any download error, the second-revision `Get` returns a nil value. -/
lemma Get_error_fst (e : StorageError) : (Get (Except.error e)).1 = none := by
  simp only [Get]
  split <;> rfl

/-- C1: the claim says every `Get` translates a blob-not-found download
error into `ds.ErrNotFound`; the third-revision `Get` (azure.go lines
438-451) instead returns the backend `StorageError` unchanged, which is not
`ds.ErrNotFound`, while the second-revision `Get` and `GetSize` do
translate it — the revisions are inconsistent and the untranslating path
is the defect the spec warns about. -/
theorem c1_getV3_skips_notfound_translation :
    GetV3 (Except.error ⟨ServiceCode.blobNotFound⟩) =
      (none, some (GoErr.storageErr ⟨ServiceCode.blobNotFound⟩)) ∧
    some (GoErr.storageErr ⟨ServiceCode.blobNotFound⟩) ≠
      some GoErr.dsErrNotFound ∧
    Get (Except.error ⟨ServiceCode.blobNotFound⟩) =
      (none, some GoErr.dsErrNotFound) ∧
    GetSize (Except.error ⟨ServiceCode.blobNotFound⟩) =
      (-1, some GoErr.dsErrNotFound) := by
  decide

/-- C2: Put followed by Get on the same key, with no intervening write and
a successful backend on both calls, returns exactly the bytes that were
put, with a nil error. -/
theorem c2_put_get_roundtrip (σ : Store) (Fp Fg : Faults) (k : String)
    (v : List Nat) (hp : Fp k = none) (hg : Fg k = none) :
    dsGet (dsPut σ Fp k v).1 Fg k = (some v, none) := by
  simp [dsPut, hp, dsGet, download, hg, upload, Get, Put]

/-- Witness for C2 at the empty store, key "/a" and value [1, 2]. -/
theorem c2_put_get_roundtrip_witness :
    noFault "/a" = none ∧
    dsGet (dsPut emptyStore noFault "/a" [1, 2]).1 noFault "/a" =
      (some [1, 2], none) :=
  ⟨rfl, c2_put_get_roundtrip emptyStore noFault noFault "/a" [1, 2] rfl rfl⟩

/-- C3: the claim says every `Delete` swallows the backend blob-not-found
error and returns nil; the third-revision `Delete` (azure.go lines
479-486) returns the backend error unchanged on an absent key, while the
second-revision `Delete` returns nil both on success and on
blob-not-found. -/
theorem c3_deleteV3_surfaces_notfound :
    DeleteV3 (some ⟨ServiceCode.blobNotFound⟩) =
      some (GoErr.storageErr ⟨ServiceCode.blobNotFound⟩) ∧
    DeleteV3 (some ⟨ServiceCode.blobNotFound⟩) ≠ none ∧
    Delete (some ⟨ServiceCode.blobNotFound⟩) = none ∧
    Delete none = none := by
  decide

/-- C4: the claim says the results channel is closed exactly once and only
after all fetches joined, including when a listing page errs; but when the
second page of a listing errs after the first page spawned a fetch, the
producer goroutine (azure.go lines 307-341) closes the channel inside the
loop without waiting on the wait group, leaving one fetch in flight at the
close, whereas the error-free run of the same listing closes once after
the join. -/
theorem c4_query_close_before_join :
    queryEvents [some [⟨"/a", 1⟩], none] false =
      [QEvent.spawnFetch "/a", QEvent.closeCh] ∧
    pendingAtFirstClose [QEvent.spawnFetch "/a", QEvent.closeCh] = 1 ∧
    ¬ singleCloseAfterJoin [QEvent.spawnFetch "/a", QEvent.closeCh] ∧
    queryEvents [some [⟨"/a", 1⟩]] false =
      [QEvent.spawnFetch "/a", QEvent.waitAll, QEvent.closeCh] ∧
    singleCloseAfterJoin
      [QEvent.spawnFetch "/a", QEvent.waitAll, QEvent.closeCh] := by
  refine ⟨rfl, rfl, fun h => absurd h.2 (by decide), rfl, rfl, rfl⟩

/-- C5: in a keys-only=false Query over a listing, every listed blob whose
fetch succeeds is emitted as an Entry carrying its key, its stored value
and a nil error — whatever faults other keys suffer — and every listed
blob whose fetch fails is still emitted, with a nil value and the fetch
failure recorded in its own error field. -/
theorem c5_query_entry_per_key (σ : Store) (F : Faults)
    (items : List BlobItem) (b : BlobItem) (v : List Nat) (hb : b ∈ items)
    (hf : F b.name = none) (hσ : σ b.name = some v) :
    ({ key := b.name, value := some v, size := b.contentLength,
       error := none } : Entry) ∈ queryEntries σ F items ∧
    ∀ c : BlobItem, ∀ err : StorageError, c ∈ items → F c.name = some err →
      ({ key := c.name, value := none, size := c.contentLength,
         error := (Get (Except.error err)).2 } : Entry) ∈
        queryEntries σ F items := by
  constructor
  · exact List.mem_map.mpr ⟨b, hb, by simp [dsGet, download, hf, hσ, Get]⟩
  · intro c err hc hcf
    exact List.mem_map.mpr
      ⟨c, hc, by simp [dsGet, download, hcf, Get_error_fst err]⟩

/-- Witness for C5: listing of "/a" and "/b" over a store holding "hi" at
"/a", with the fetch for "/b" failing. -/
theorem c5_query_entry_per_key_witness :
    (⟨"/a", 2⟩ : BlobItem) ∈ itemsAB ∧ faultB "/a" = none ∧
    storeA "/a" = some [104, 105] ∧
    ({ key := "/a", value := some [104, 105], size := 2,
       error := none } : Entry) ∈ queryEntries storeA faultB itemsAB :=
  ⟨by decide, rfl, rfl,
   (c5_query_entry_per_key storeA faultB itemsAB ⟨"/a", 2⟩ [104, 105]
     (by decide) rfl rfl).1⟩

/-- C6: `Has` issues exactly one metadata request and no download, and
returns (false, nil) on a blob-not-found backend error, (true, nil) on a
successful metadata response, and (false, err) with the backend error
unchanged on any other backend error. -/
theorem c6_has_metadata_only (k : String) (p : BlobProps) (e : StorageError)
    (hnf : e.serviceCode = ServiceCode.blobNotFound) (e2 : StorageError)
    (h2 : e2.serviceCode ≠ ServiceCode.blobNotFound) :
    Has (Except.error e) = (false, none) ∧
    Has (Except.ok p) = (true, none) ∧
    Has (Except.error e2) = (false, some (GoErr.storageErr e2)) ∧
    hasRequests k = [Request.getPropertiesReq k] ∧
    Request.downloadReq k ∉ hasRequests k := by
  refine ⟨?_, rfl, ?_, rfl, by simp [hasRequests]⟩
  · simp [Has, isError, hnf]
  · simp [Has, isError, h2]

/-- Witness for C6 at a blob-not-found error, a metadata response of
length 5, and the backend error "x". -/
theorem c6_has_metadata_only_witness :
    (⟨ServiceCode.blobNotFound⟩ : StorageError).serviceCode =
      ServiceCode.blobNotFound ∧
    (⟨ServiceCode.otherCode "x"⟩ : StorageError).serviceCode ≠
      ServiceCode.blobNotFound ∧
    Has (Except.error ⟨ServiceCode.blobNotFound⟩) = (false, none) :=
  ⟨rfl, by decide,
   (c6_has_metadata_only "/k" ⟨5⟩ ⟨ServiceCode.blobNotFound⟩ rfl
     ⟨ServiceCode.otherCode "x"⟩ (by decide)).1⟩

/-- C7: `GetSize` issues exactly one metadata request and no download; for
a stored key it returns the content length the backend reports (the stored
byte count) with a nil error, and for an absent key the generic
`ds.ErrNotFound`. -/
theorem c7_getsize_reports_content_length (σ : Store) (k : String)
    (v : List Nat) :
    (σ k = some v → dsGetSize σ noFault k = ((v.length : Int), none)) ∧
    (σ k = none → dsGetSize σ noFault k = (-1, some GoErr.dsErrNotFound)) ∧
    getSizeRequests k = [Request.getPropertiesReq k] ∧
    Request.downloadReq k ∉ getSizeRequests k := by
  refine ⟨fun h => ?_, fun h => ?_, rfl, by simp [getSizeRequests]⟩
  · simp [dsGetSize, getProperties, noFault, h, GetSize]
  · simp [dsGetSize, getProperties, noFault, h, GetSize, isError]

/-- Witness for C7 on the store holding the two bytes "hi" at "/a": present
key "/a" has size 2, absent key "/b" yields `ds.ErrNotFound`. -/
theorem c7_getsize_reports_content_length_witness :
    storeA "/a" = some [104, 105] ∧
    dsGetSize storeA noFault "/a" = (2, none) ∧
    storeA "/b" = none ∧
    dsGetSize storeA noFault "/b" = (-1, some GoErr.dsErrNotFound) :=
  ⟨rfl, (c7_getsize_reports_content_length storeA "/a" [104, 105]).1 rfl,
   rfl, (c7_getsize_reports_content_length storeA "/b" []).2.1 rfl⟩

/-- C8: the claim says DiskUsage returns a documented sentinel or an
unsupported error, never a fabricated byte count presented as real;
the code returns the constant 100 with a nil error regardless of the
container contents — for a container totalling 5 bytes the reported
usage 100 is fabricated and no error flags it. -/
theorem c8_diskusage_fabricated :
    DiskUsage = (100, none) ∧
    diskUsageOf [("/a", [1, 2, 3, 4, 5])] = 5 ∧
    DiskUsage.1 ≠ diskUsageOf [("/a", [1, 2, 3, 4, 5])] ∧
    DiskUsage.2 = none := by
  decide

/-- C9: construction succeeds when container creation succeeds or fails
with the container-already-exists code, aborts with the creation error and
no adapter on any other creation failure, and aborts on a credential
error. -/
theorem c9_newdatastore_idempotent_create (e : StorageError)
    (hex : e.serviceCode = ServiceCode.containerAlreadyExists)
    (e2 : StorageError)
    (h2 : e2.serviceCode ≠ ServiceCode.containerAlreadyExists) :
    NewDatastore none none = (some (), none) ∧
    NewDatastore none (some e) = (some (), none) ∧
    NewDatastore none (some e2) = (none, some (GoErr.storageErr e2)) ∧
    ∀ s : String, NewDatastore (some s) none =
      (none, some (GoErr.otherErr s)) := by
  refine ⟨rfl, ?_, ?_, fun s => rfl⟩
  · simp [NewDatastore, isError, hex]
  · simp [NewDatastore, isError, h2]

/-- Witness for C9 at an already-exists creation error and an
access-denied creation error. -/
theorem c9_newdatastore_idempotent_create_witness :
    (⟨ServiceCode.containerAlreadyExists⟩ : StorageError).serviceCode =
      ServiceCode.containerAlreadyExists ∧
    (⟨ServiceCode.otherCode "denied"⟩ : StorageError).serviceCode ≠
      ServiceCode.containerAlreadyExists ∧
    NewDatastore none (some ⟨ServiceCode.containerAlreadyExists⟩) =
      (some (), none) :=
  ⟨rfl, by decide,
   (c9_newdatastore_idempotent_create ⟨ServiceCode.containerAlreadyExists⟩
     rfl ⟨ServiceCode.otherCode "denied"⟩ (by decide)).2.1⟩

/-- C10: on a metadata error, `GetSize` returns -1 paired with
`ds.ErrNotFound` when the backend reports blob-not-found, and 0 paired
with the unchanged backend error otherwise; in both cases the error is
non-nil, so the returned size is not a measurement. -/
theorem c10_getsize_error_values (e : StorageError) :
    (e.serviceCode = ServiceCode.blobNotFound →
      GetSize (Except.error e) = (-1, some GoErr.dsErrNotFound)) ∧
    (e.serviceCode ≠ ServiceCode.blobNotFound →
      GetSize (Except.error e) = (0, some (GoErr.storageErr e))) := by
  constructor
  · intro h; simp [GetSize, isError, h]
  · intro h; simp [GetSize, isError, h]

/-- Witness for C10 at a blob-not-found error and the backend error "x". -/
theorem c10_getsize_error_values_witness :
    (⟨ServiceCode.blobNotFound⟩ : StorageError).serviceCode =
      ServiceCode.blobNotFound ∧
    GetSize (Except.error ⟨ServiceCode.blobNotFound⟩) =
      (-1, some GoErr.dsErrNotFound) ∧
    (⟨ServiceCode.otherCode "x"⟩ : StorageError).serviceCode ≠
      ServiceCode.blobNotFound ∧
    GetSize (Except.error ⟨ServiceCode.otherCode "x"⟩) =
      (0, some (GoErr.storageErr ⟨ServiceCode.otherCode "x"⟩)) :=
  ⟨rfl, (c10_getsize_error_values ⟨ServiceCode.blobNotFound⟩).1 rfl,
   by decide,
   (c10_getsize_error_values ⟨ServiceCode.otherCode "x"⟩).2 (by decide)⟩
